import Mathlib

/-!
Verification of the Darwinian Engine evolution pipeline (backend lambda agents).

The Python sources under `src/backend/functions/` are shallowly embedded here:
JSON/DynamoDB items become the inductive `Json`; the single-lineage partition of
the versioned store becomes an association list keyed by sort key; each
external collaborator (the Bedrock inference gateway, uuid/clock) becomes an
explicit parameter carrying its observable outcome.  Python runtime errors
(KeyError, AttributeError, TypeError) are modelled by `Option`/`none` results:
a `none` means the lambda invocation raises and terminates abnormally.
-/

/-- JSON values, as produced by `json.loads` / stored in DynamoDB items.
Numbers are modelled as integers (the pipeline only manipulates integral
counters in the places the claims touch). -/
inductive Json where
  | null
  | bool (b : Bool)
  | num (n : Int)
  | str (s : String)
  | arr (items : List Json)
  | obj (fields : List (String × Json))
deriving Repr

mutual

/-- Python `str(x)` / f-string interpolation of a value.  Scalars follow
Python exactly (`None`, `True`, `False`, decimal integers, strings verbatim);
containers are rendered recursively in bracket/brace style.  No claim in this
development depends on the rendering of a container. -/
def Json.render : Json → String
  | .null => "None"
  | .bool true => "True"
  | .bool false => "False"
  | .num n => toString n
  | .str s => s
  | .arr xs => "[" ++ String.intercalate ", " (Json.renderList xs) ++ "]"
  | .obj fs => "\x7b" ++ String.intercalate ", " (Json.renderFields fs) ++ "\x7d"

/-- Renders every element of a list. -/
def Json.renderList : List Json → List String
  | [] => []
  | x :: xs => Json.render x :: Json.renderList xs

/-- Renders every field of an object. -/
def Json.renderFields : List (String × Json) → List String
  | [] => []
  | f :: fs => (f.1 ++ ": " ++ Json.render f.2) :: Json.renderFields fs

end

/-- Python `s.startswith(pre)` (the standard-library `String.startsWith` is
not kernel-reducible, so the check is done on the character lists). -/
def pyStartsWith (s pre : String) : Bool := List.isPrefixOf pre.data s.data

/-- Splitting a character list at every occurrence of a separator. -/
def splitOnChar (c : Char) : List Char → List (List Char)
  | [] => [[]]
  | x :: rest =>
    if x == c then [] :: splitOnChar c rest
    else
      match splitOnChar c rest with
      | [] => [[x]]
      | h :: t => (x :: h) :: t

/-- Python `s.split(sep)` for a one-character separator — the source only
ever splits on `'#'`. -/
def pySplit (s : String) (sep : Char) : List String :=
  (splitOnChar sep s.data).map String.mk

/-- Whether `pat` occurs as a contiguous run inside the list. -/
def listHasInfix (pat : List Char) : List Char → Bool
  | [] => pat.isEmpty
  | c :: rest => pat.isPrefixOf (c :: rest) || listHasInfix pat rest

/-- Python slicing `s[:n]` (by code points). -/
def pyTake (s : String) (n : Nat) : String := String.mk (s.data.take n)

/-- Python `d[k]` on a dict: `some` the value, `none` for a KeyError, and
`none` as well when the receiver is not a dict (a TypeError in Python; both
abort the invocation). -/
def Json.lookup : Json → String → Option Json
  | .obj fs, k => fs.lookup k
  | _, _ => none

/-- Python `d.get(k, default)`: total on dicts, `none` (AttributeError) on
anything else. -/
def Json.pyGet (j : Json) (k : String) (d : Json) : Option Json :=
  match j with
  | .obj fs => some ((fs.lookup k).getD d)
  | _ => none

/-- Replace the binding of `k` in place (Python dict item assignment keeps the
insertion position of an existing key) or append a fresh binding. -/
def setField : List (String × Json) → String → Json → List (String × Json)
  | [], k, v => [(k, v)]
  | (k', v') :: fs, k, v => if k' = k then (k, v) :: fs else (k', v') :: setField fs k v

/-- Python `d[k] = v`: only dicts support item assignment. -/
def Json.setKey (j : Json) (k : String) (v : Json) : Option Json :=
  match j with
  | .obj fs => some (.obj (setField fs k v))
  | _ => none

/-- Python truthiness of a value (`if x:`). -/
def pythonTruthy : Json → Bool
  | .null => false
  | .bool b => b
  | .num n => n != 0
  | .str s => s ≠ ""
  | .arr xs => !xs.isEmpty
  | .obj fs => !fs.isEmpty

/-- Python `len(x)`: defined for strings, lists and dicts, a TypeError
(`none`) otherwise. -/
def pythonLen : Json → Option Nat
  | .str s => some s.length
  | .arr xs => some xs.length
  | .obj fs => some fs.length
  | _ => none

/-- Python `for x in j`: lists yield their items, strings their characters,
dicts their keys; anything else is a TypeError. -/
def pyIterate : Json → Option (List Json)
  | .arr xs => some xs
  | .str s => some (s.data.map (fun c => Json.str (String.mk [c])))
  | .obj fs => some (fs.map (fun f => Json.str f.1))
  | _ => none

/-- Substring test, modelling Python `pat in s`. -/
def strContains (s pat : String) : Bool := listHasInfix pat.data s.data

/-- Python `k in j` for a string key `k`: dict key membership, substring test
on strings, element equality on lists (only string elements can equal `k`);
TypeError (`none`) otherwise. -/
def pyIn (k : String) (j : Json) : Option Bool :=
  match j with
  | .obj fs => some (fs.any (fun f => f.1 == k))
  | .str s => some (strContains s k)
  | .arr xs => some (xs.any (fun x => match x with | .str s => s == k | _ => false))
  | _ => none

/-- One lineage partition of the versioned store: sort key `↦` item.  All the
claims concern a single partition key, so the store is keyed by sort key
alone.  `put` is a full overwrite, as in DynamoDB `put_item`. -/
abbrev Store := List (String × Json)

def Store.put (s : Store) (k : String) (v : Json) : Store := setField s k v

def Store.get (s : Store) (k : String) : Option Json := s.lookup k

/-- Apply a list of `put_item` operations in order. -/
def Store.apply (s : Store) (ops : List (String × Json)) : Store :=
  ops.foldl (fun st op => Store.put st op.1 op.2) s

/-! ## Exception-propagating sequencing

The embedded Python functions thread possible exceptions through
`Option`; `obind` is `Option.bind` under a name the code generator does not
inline (long inlined `Option.bind` chains blow the compiler up). -/

def obind {α β : Type} (x : Option α) (f : α → Option β) : Option β :=
  match x with
  | none => none
  | some a => f a

/-! ## Shared prompt construction

`construct_system_prompt` is duplicated verbatim in `proxy_agent/app.py`,
`mutator_agent/app.py` and `judge_agent/app.py`; it is embedded once here.
`estimate_token_count` is from `mutator_agent/app.py`. -/

/-- One list-of-items section of the prompt: if the value is truthy, append
the header, one formatted line per iterated element, and a blank line. -/
def appendListSection (parts : List String) (header : String) (j : Json)
    (fmt : Json → String) : Option (List String) :=
  if pythonTruthy j then
    obind (pyIterate j) fun items =>
    some (parts ++ [header] ++ items.map fmt ++ [""])
  else
    some parts

/-- One free-text section of the prompt: if the value is truthy it is appended
raw; a truthy non-string would make the final `"\n".join` raise (`none`). -/
def appendTextSection (parts : List String) (header : String) (j : Json) :
    Option (List String) :=
  if pythonTruthy j then
    match j with
    | .str s => some (parts ++ [header, s, ""])
    | _ => none
  else
    some parts

/-- The AVAILABLE TOOLS section: each iterated tool must support `.get`
(i.e. be a dict), contributing a "- name: description" line. -/
def appendToolsSection (parts : List String) (j : Json) : Option (List String) :=
  if pythonTruthy j then
    obind (pyIterate j) fun tools =>
    obind (tools.mapM (fun tool =>
      obind (tool.pyGet "name" (.str "unknown")) fun nm =>
      obind (tool.pyGet "description" (.str "No description")) fun ds =>
      some ("- " ++ nm.render ++ ": " ++ ds.render))) fun lines =>
    some (parts ++ ["AVAILABLE TOOLS:"] ++ lines ++ [""])
  else
    some parts

/-- Embedding of `construct_system_prompt(genome)`: persona line, then STYLE
GUIDE, OBJECTIVES, OPERATIONAL GUIDELINES, KNOWLEDGE BASE, POLICY CONSTRAINTS
and AVAILABLE TOOLS sections (each only when truthy), joined by newlines. -/
def construct_system_prompt (genome : Json) : Option String :=
  obind (genome.pyGet "brain" (.obj [])) fun brain =>
  obind (genome.pyGet "resources" (.obj [])) fun resources =>
  obind (genome.pyGet "capabilities" (.obj [])) fun capabilities =>
  obind (brain.pyGet "persona" (.obj [])) fun persona =>
  obind (persona.pyGet "role" (.str "AI Assistant")) fun role =>
  obind (persona.pyGet "tone" (.str "Professional")) fun tone =>
  obind (brain.pyGet "style_guide" (.arr [])) fun style_guide =>
  obind (brain.pyGet "objectives" (.arr [])) fun objectives =>
  obind (brain.pyGet "operational_guidelines" (.arr [])) fun operational_guidelines =>
  obind (resources.pyGet "knowledge_base_text" (.str "")) fun knowledge_base_text =>
  obind (resources.pyGet "policy_text" (.str "")) fun policy_text =>
  obind (capabilities.pyGet "active_tools" (.arr [])) fun active_tools =>
  obind (appendListSection
    ["You are a " ++ role.render ++ " with a " ++ tone.render ++ " tone.", ""]
    "STYLE GUIDE:" style_guide (fun item => "- " ++ item.render)) fun parts1 =>
  obind (appendListSection parts1 "OBJECTIVES:" objectives (fun item => "- " ++ item.render)) fun parts2 =>
  obind (appendListSection parts2 "OPERATIONAL GUIDELINES:" operational_guidelines
    (fun g => g.render)) fun parts3 =>
  obind (appendTextSection parts3 "KNOWLEDGE BASE:" knowledge_base_text) fun parts4 =>
  obind (appendTextSection parts4 "POLICY CONSTRAINTS:" policy_text) fun parts5 =>
  obind (appendToolsSection parts5 active_tools) fun parts6 =>
  some (String.intercalate "\n" parts6)

/-- Embedding of `estimate_token_count(text)`: 0 for an empty (falsy) string,
otherwise `int(len(text) / 4)`. -/
def estimate_token_count (text : String) : Nat :=
  if text = "" then 0 else text.length / 4

namespace Mutator

/-! Embedding of `src/backend/functions/mutator_agent/app.py`.

The mutation-generation Bedrock call plus the text-level half of
`extract_json_safely` (regex extraction and `json.loads`) is abstracted as an
`Option Json` parameter `llm`: `none` when the call raised or no JSON object
or array could be extracted and parsed, `some parsed` for the parsed value.
`compute_hash` (a truncated SHA-256 of the canonical JSON dump of the mutated
brain) is abstracted as a `Json → String` parameter. -/

/-- Embedding of the value-level dispatch of `extract_json_safely`: a parsed
dict yields its `mutations` value (missing key falls through to the
`ValueError`, i.e. `none`), a bare array is returned as is. -/
def extract_json_safely (parsed : Json) : Option Json :=
  match parsed with
  | .obj fs => fs.lookup "mutations"
  | .arr xs => some (.arr xs)
  | _ => none

/-- One tone rewrite of the fallback generator:
`m['persona']['tone'] = f"..."` after reading
`m['persona'].get('tone', 'Professional')`.  `none` models the KeyError on a
missing `persona` and the AttributeError / TypeError on a non-dict one. -/
def mutate_tone (brain : Json) (suffix : String) : Option Json :=
  obind (brain.lookup "persona") fun persona =>
  obind (persona.pyGet "tone" (.str "Professional")) fun tone =>
  obind (persona.setKey "tone" (.str (tone.render ++ " (" ++ suffix ++ ")"))) fun persona2 =>
  brain.setKey "persona" persona2

/-- Embedding of `m[key].append(entry)`: requires an existing list at `key`. -/
def append_to_list (brain : Json) (key : String) (entry : String) : Option Json :=
  obind (brain.lookup key) fun v =>
  match v with
  | .arr xs => brain.setKey key (.arr (xs ++ [.str entry]))
  | _ => none

/-- Embedding of `generate_fallback_mutations(original_brain)`: three safe
variants (Stricter / Empathetic / Concise tone, each with one added guideline
or style rule), derived from deep copies of the original brain. -/
def generate_fallback_mutations (original_brain : Json) : Option (List Json) :=
  obind (mutate_tone original_brain "Stricter") fun m1a =>
  obind (append_to_list m1a "operational_guidelines" "Strictly adhere to the provided policy.") fun m1 =>
  obind (mutate_tone original_brain "Empathetic") fun m2a =>
  obind (append_to_list m2a "operational_guidelines" "Ensure the user feels heard and understood.") fun m2 =>
  obind (mutate_tone original_brain "Concise") fun m3a =>
  obind (append_to_list m3a "style_guide" "Keep responses under 2 sentences when possible.") fun m3 =>
  some [m1, m2, m3]

/-- Embedding of `generate_mutations(...)`: on a successful generation and
extraction the extracted value is returned unchecked; a Bedrock error or a
parse failure falls back to `generate_fallback_mutations(brain)`, whose own
uncaught exceptions propagate. -/
def generate_mutations (original_genome : Json) (llm : Option Json) : Option Json :=
  obind (original_genome.lookup "brain") fun brain =>
  match llm with
  | some parsed =>
    match extract_json_safely parsed with
    | some v => some v
    | none => (generate_fallback_mutations brain).map Json.arr
  | none => (generate_fallback_mutations brain).map Json.arr

/-- Embedding of step 5 of the Mutator `lambda_handler`: generate mutations,
then the safety check `if len(mutations) != 3: mutations =
generate_fallback_mutations(original_genome['brain'])`.  `len` of a non-sized
value is a TypeError. -/
def mutations_step (original_genome : Json) (llm : Option Json) : Option Json :=
  obind (generate_mutations original_genome llm) fun mutations =>
  obind (pythonLen mutations) fun n =>
  if n ≠ 3 then
    obind (original_genome.lookup "brain") fun brain =>
    (generate_fallback_mutations brain).map Json.arr
  else
    some mutations

/-- Embedding of the timestamp extraction in `write_complete_challengers`:
`original_genome['SK'].split('#')[1]`, falling back to the current UTC time
on any exception. -/
def extract_timestamp (original_genome : Json) (now : String) : String :=
  match original_genome.lookup "SK" with
  | some (.str sk) =>
    match (pySplit sk '#').get? 1 with
    | some t => t
    | none => now
  | _ => now

/-- The challenger sort key `VERSION#<timestamp>#CHALLENGER#attempt-<n>`. -/
def challenger_sk_string (ts : String) (attempt : Nat) : String :=
  "VERSION#" ++ ts ++ "#CHALLENGER#attempt-" ++ toString attempt

/-- Embedding of `assemble_complete_genome(original, mutation_brain,
critic_issue, challenger_sk)`: fresh metadata (PENDING_APPROVAL, content hash
of the mutated brain as `version_hash`, the parent's `version_hash` as
`parent_hash`), the parent's config / resources / capabilities /
evolution_config copied verbatim, and recomputed economics. -/
def assemble_complete_genome (compute_hash : Json → String) (original : Json)
    (mutation_brain : Json) (critic_issue : Json) (challenger_sk : String) :
    Option Json :=
  obind (original.pyGet "metadata" (.obj [])) fun original_meta =>
  obind (original_meta.pyGet "name" (.str "Agent")) fun name =>
  obind (original_meta.pyGet "description" (.str "")) fun description =>
  obind (original_meta.pyGet "version_hash" (.str "unknown")) fun parent_hash =>
  obind (critic_issue.lookup "reason") fun mutation_reason =>
  obind (original.pyGet "config" (.obj [])) fun config =>
  obind (original.pyGet "resources" (.obj [])) fun resources =>
  obind (original.pyGet "capabilities" (.obj [])) fun capabilities =>
  obind (original.pyGet "evolution_config" (.obj [])) fun evolution_config =>
  obind (original.pyGet "economics" (.obj [])) fun original_econ =>
  obind (construct_system_prompt (Json.obj
    [("brain", mutation_brain), ("resources", resources), ("capabilities", capabilities)]))
    fun full_system_prompt =>
  obind (original_econ.pyGet "token_budget" (.num 600)) fun token_budget =>
  obind (original.lookup "PK") fun pk =>
  some (Json.obj [
    ("PK", pk),
    ("SK", .str challenger_sk),
    ("EntityType", .str "Challenger"),
    ("metadata", Json.obj [
      ("name", .str (name.render ++ " (Candidate)")),
      ("description", description),
      ("creator", .str "Darwinian_Mutator_Agent"),
      ("version_hash", .str (compute_hash mutation_brain)),
      ("parent_hash", parent_hash),
      ("deployment_state", .str "PENDING_APPROVAL"),
      ("mutation_reason", mutation_reason)]),
    ("config", config),
    ("economics", Json.obj [
      ("likes", .num 0),
      ("dislikes", .num 0),
      ("input_token_count", .num (Int.ofNat (estimate_token_count full_system_prompt))),
      ("token_budget", token_budget),
      ("estimated_cost_of_calling", .str "$0.001")]),
    ("brain", mutation_brain),
    ("resources", resources),
    ("capabilities", capabilities),
    ("evolution_config", evolution_config)])

/-- The enumerate loop of `write_complete_challengers`: for the i-th mutation
(0-based) assemble a challenger under sort key attempt `base + i` and
`put_item` it.  Returns the ordered put operations and the collected
challenger sort keys. -/
def write_loop (compute_hash : Json → String) (original critic_issue : Json)
    (ts : String) (base : Nat) :
    List Json → Nat → Option (List (String × Json) × List String)
  | [], _ => some ([], [])
  | m :: rest, i =>
    obind (assemble_complete_genome compute_hash original m critic_issue
      (challenger_sk_string ts (base + i))) fun ch =>
    obind (write_loop compute_hash original critic_issue ts base rest (i + 1)) fun rec_result =>
    some ((challenger_sk_string ts (base + i), ch) :: rec_result.1,
          challenger_sk_string ts (base + i) :: rec_result.2)

/-- Embedding of `write_complete_challengers(original_genome, mutations,
critic_issue, retry_count)`: attempt numbering starts at 1 for retry count 0
and at 4 for every other retry count. -/
def write_complete_challengers (compute_hash : Json → String)
    (original_genome : Json) (mutations : Json) (critic_issue : Json)
    (retry_count : Int) (now : String) :
    Option (List (String × Json) × List String) :=
  obind (pyIterate mutations) fun items =>
  write_loop compute_hash original_genome critic_issue
    (extract_timestamp original_genome now)
    (if retry_count = 0 then 1 else 4) items 0

end Mutator

namespace Judge

/-! Embedding of `src/backend/functions/judge_agent/app.py` (failure handler
and the compliance branch of `lambda_handler`).

The arbitration Bedrock call inside `invoke_judge_model` is abstracted as an
`Option Json` parameter: `some j` when the `converse` call succeeded and the
regex / `json.loads` parsing of its text produced `j`; `none` when the call
raised or no JSON could be parsed out of the text. -/

/-- Embedding of `invoke_judge_model(prompt)`: every exception is caught and
an empty dict is returned, so a parse or invocation failure yields `{}` and
the function never raises. -/
def invoke_judge_model (outcome : Option Json) : Json :=
  outcome.getD (Json.obj [])

/-- Embedding of `run_compliance_stage(response_text, genome, history)`: the
prompt built from the genome's resources and judge rubric is string-only and
does not affect the embedded result.  Because `invoke_judge_model` never
raises, the `except` arm returning `passed: False` is unreachable and the
stage returns whatever dict the model call produced. -/
def run_compliance_stage (genome : Json) (outcome : Option Json) : Json :=
  invoke_judge_model outcome

/-- Embedding of the Judge `handle_failure(pk, genome_sk, chat_sk,
retry_count, reason, failed_challenger)`: below the retry threshold, a bare
non-terminal result carrying the unchanged retry count; at or above it, an
OPEN / SYSTEM ticket is written and a terminal result naming the ticket is
returned.  `ticket_id` and `timestamp` stand for the uuid and clock reads. -/
def handle_failure (pk genome_sk chat_sk : String) (retry_count : Int)
    (reason : String) (failed_challenger : Option String)
    (ticket_id timestamp : String) : List (String × Json) × Json :=
  if retry_count < 1 then
    ([], Json.obj [
      ("improved", .bool false),
      ("reason", .str reason),
      ("retryCount", .num retry_count)])
  else
    ([(genome_sk ++ "#TICKET#" ++ ticket_id, Json.obj [
        ("PK", .str pk),
        ("SK", .str (genome_sk ++ "#TICKET#" ++ ticket_id)),
        ("EntityType", .str "Ticket"),
        ("timestamp", .str timestamp),
        ("type", .str "SYSTEM"),
        ("status", .str "OPEN"),
        ("chat_sk", .str chat_sk),
        ("challenger_sk", .str (failed_challenger.getD "NONE_SELECTED")),
        ("feedback", .str "Automated Alert: Judge marked evolution as FAIL after retries."),
        ("ai_analysis", .str reason)])],
     Json.obj [
      ("improved", .bool false),
      ("reason", .str ("Final Failure. Ticket Created: " ++ ticket_id)),
      ("ticket_sk", .str (genome_sk ++ "#TICKET#" ++ ticket_id)),
      ("retryCount", .num retry_count)])

/-- Embedding of the winner branch of the Judge `lambda_handler` (steps 5-6
after the comparator returned a winner): run the compliance stage, then
branch on `compliance_result['passed']` — a dict without that key (as
produced whenever the arbitration call errors or its output is unparsable)
raises an uncaught KeyError, aborting the invocation (`none`). -/
def winner_branch (pk genome_sk chat_sk : String) (retry_count : Int)
    (winner_sk winner_response : String) (original_genome : Json)
    (compliance_outcome : Option Json) (ticket_id timestamp : String) :
    Option (List (String × Json) × Json) :=
  obind ((run_compliance_stage original_genome compliance_outcome).lookup "passed") fun passed =>
  if pythonTruthy passed then
    obind ((run_compliance_stage original_genome compliance_outcome).lookup "reason") fun reason =>
    some ([], Json.obj [
      ("improved", .bool true),
      ("selected_challenger_sk", .str winner_sk),
      ("improved_response", .str winner_response),
      ("reason", reason),
      ("retryCount", .num retry_count)])
  else
    obind ((run_compliance_stage original_genome compliance_outcome).lookup "reason") fun reason =>
    some (handle_failure pk genome_sk chat_sk retry_count
      ("Improved logic but failed Compliance: " ++ reason.render)
      (some winner_sk) ticket_id timestamp)

end Judge

namespace Supervisor

/-! Embedding of `src/backend/functions/supervisor_agent/app.py`.

The Titan safety-audit call is abstracted as `AuditOutcome`: `ok text` when
`invoke_model` returned and the response body parsed, carrying the stripped
`outputText`; `err msg` when the invocation raised or the body was
malformed (both are caught by the same `except`). -/

/-- Observable outcome of the safety-audit model call. -/
inductive AuditOutcome where
  | err (msg : String)
  | ok (outputText : String)

/-- Result shape of `validate_genome_safety`. -/
structure SafetyCheck where
  safe : Bool
  reason : String
deriving Repr, DecidableEq

/-- Embedding of `validate_genome_safety(item)`: structural check first
(falsy brain, or `persona` / `operational_guidelines` not `in` it), then the
audit-dossier construction (whose `.get` calls require a dict brain), then
the audit call: output starting with SAFE passes, output containing
VIOLATION fails, anything else is ambiguous and treated as safe, and an
audit error fails closed. -/
def validate_genome_safety (item : Json) (audit : AuditOutcome) : Option SafetyCheck :=
  obind (item.pyGet "brain" (.obj [])) fun brain =>
  obind (item.pyGet "resources" (.obj [])) fun resources =>
  obind
    (if !pythonTruthy brain then some true
     else
       obind (pyIn "persona" brain) fun hasPersona =>
       if !hasPersona then some true
       else
         obind (pyIn "operational_guidelines" brain) fun hasGuidelines =>
         some (!hasGuidelines)) fun structuralFail =>
  if structuralFail then
    some ⟨false, "Structural Corruption: Missing Brain/Persona"⟩
  else
    obind (resources.pyGet "policy_text" (.str "No specific policy defined.")) fun _policy_text =>
    obind (brain.pyGet "persona" .null) fun _dump_persona =>
    obind (brain.pyGet "objectives" .null) fun _dump_objectives =>
    obind (brain.pyGet "operational_guidelines" .null) fun _dump_guidelines =>
    match audit with
    | .err e => some ⟨false, "Audit System Offline: " ++ e⟩
    | .ok result_text =>
      if pyStartsWith result_text "SAFE" then
        some ⟨true, "Passed Policy Audit"⟩
      else if strContains result_text "VIOLATION" then
        some ⟨false, result_text⟩
      else
        some ⟨true, "Passed (Ambiguous Audit)"⟩

/-- Embedding of the Supervisor `handle_failure(pk, genome_sk, chat_sk,
retry_count, reason, failed_challenger)`: below the retry threshold the
result is only `compliant: False` plus the reason (no retry count); at or
above it an OPEN / SYSTEM ticket is written and the result names the
ticket. -/
def handle_failure (pk genome_sk : String) (chat_sk : Option String)
    (retry_count : Int) (reason : String) (failed_challenger : Option String)
    (ticket_id timestamp : String) : List (String × Json) × Json :=
  if retry_count < 1 then
    ([], Json.obj [("compliant", .bool false), ("reason", .str reason)])
  else
    ([(genome_sk ++ "#TICKET#" ++ ticket_id, Json.obj [
        ("PK", .str pk),
        ("SK", .str (genome_sk ++ "#TICKET#" ++ ticket_id)),
        ("EntityType", .str "Ticket"),
        ("timestamp", .str timestamp),
        ("type", .str "SYSTEM"),
        ("status", .str "OPEN"),
        ("chat_sk", .str (match chat_sk with
          | some s => if s = "" then "UNKNOWN" else s
          | none => "UNKNOWN")),
        ("challenger_sk", .str (failed_challenger.getD "NONE")),
        ("feedback", .str "Automated Alert: Supervisor Safety Check Failed."),
        ("ai_analysis", .str reason)])],
     Json.obj [
      ("compliant", .bool false),
      ("reason", .str ("Final Failure. Ticket Created: " ++ ticket_id))])

/-- Embedding of the Supervisor `lambda_handler` from step 2 on (after input
parsing): fetch the winner challenger, audit it, and either escalate through
`handle_failure` or mint the new ACTIVE GenomeVersion and update the
CURRENT pointer — the version `put_item` strictly preceding the pointer
`put_item` in the returned operation list.  `now_iso` is the minting clock
read, `new_hash` the fresh uuid used as `version_hash`, `ticket_id` and
`ticket_ts` the uuid / clock reads of a possible ticket. -/
def lambda_handler (store : Store) (pk genome_sk : String)
    (chat_sk : Option String) (retry_count : Int) (winner_sk : String)
    (promotion_reason : Json) (audit : AuditOutcome)
    (now_iso new_hash ticket_id ticket_ts : String) :
    Option (List (String × Json) × Json) :=
  match store.get winner_sk with
  | none =>
    some (handle_failure pk genome_sk chat_sk retry_count
      ("Winner SK " ++ winner_sk ++ " not found in DB.") none ticket_id ticket_ts)
  | some winner_item =>
    obind (validate_genome_safety winner_item audit) fun safety =>
    if !safety.safe then
      some (handle_failure pk genome_sk chat_sk retry_count
        ("Supervisor Safety Protocol Violation: " ++ safety.reason)
        (some winner_sk) ticket_id ticket_ts)
    else
      obind (winner_item.pyGet "brain" (.obj [])) fun brain =>
      obind (winner_item.pyGet "config" (.obj [])) fun config =>
      obind (winner_item.pyGet "resources" (.obj [])) fun resources =>
      obind (winner_item.pyGet "capabilities" (.obj [])) fun capabilities =>
      obind (winner_item.pyGet "evolution_config" (.obj [])) fun evolution_config =>
      obind (winner_item.pyGet "economics" (.obj [])) fun economics =>
      obind (winner_item.pyGet "metadata" (.obj [])) fun winner_meta =>
      obind (winner_meta.pyGet "name" (.str "Agent")) fun wname =>
      obind (winner_meta.pyGet "parent_hash" (.str "unknown")) fun parent_hash =>
      some ([("VERSION#" ++ now_iso, Json.obj [
               ("PK", .str pk),
               ("SK", .str ("VERSION#" ++ now_iso)),
               ("EntityType", .str "Genome"),
               ("brain", brain),
               ("config", config),
               ("resources", resources),
               ("capabilities", capabilities),
               ("evolution_config", evolution_config),
               ("economics", economics),
               ("metadata", Json.obj [
                 ("name", .str (wname.render ++ " (v" ++ pyTake now_iso 10 ++ ")")),
                 ("description", .str ("Evolved from " ++ genome_sk)),
                 ("creator", .str "Supervisor_Agent"),
                 ("version_hash", .str new_hash),
                 ("parent_hash", parent_hash),
                 ("deployment_state", .str "ACTIVE"),
                 ("mutation_reason", promotion_reason),
                 ("deployed_at", .str now_iso)])]),
             ("CURRENT", Json.obj [
               ("PK", .str pk),
               ("SK", .str "CURRENT"),
               ("active_version_sk", .str ("VERSION#" ++ now_iso)),
               ("last_updated", .str now_iso),
               ("updated_by", .str "Supervisor_Agent")])],
        Json.obj [
          ("status", .str "SUCCESS"),
          ("compliant", .bool true),
          ("new_active_version", .str ("VERSION#" ++ now_iso)),
          ("promotion_reason", promotion_reason)])

end Supervisor

namespace Proxy

/-! Embedding of `src/backend/functions/proxy_agent/app.py` (steps 2 and 7-9
of `lambda_handler`, i.e. everything after genome resolution that touches the
chat record and event emission).  The Bedrock `converse` call is represented
only by its returned `assistant_response`; the claims quantify over it. -/

/-- Embedding of `get_chat_history`: an absent chat (or a failed read) yields
an empty transcript and no verdict; otherwise `item.get('transcript', [])`
and `item.get('critic_verdict')`.  boto3 maps both an absent attribute and a
DynamoDB NULL to Python `None`, hence the `.null` collapse. -/
def get_chat_history (chat_item : Option Json) : Option (Json × Option Json) :=
  match chat_item with
  | none => some (Json.arr [], none)
  | some item =>
    obind (item.pyGet "transcript" (.arr [])) fun transcript =>
    obind (item.pyGet "critic_verdict" .null) fun cv =>
    some (transcript, match cv with | .null => none | v => some v)

/-- Embedding of the `update_item` issued by `store_chat_transcript`: `SET
transcript = :transcript, updated_at = :updated_at` on the chat sort key,
creating the item when absent (DynamoDB upsert semantics; the synthesized
item carries only the updated attributes — the key attributes are implicit
in the single-partition store model). -/
def update_chat (store : Store) (chat_sk : String) (new_transcript : Json)
    (now : String) : Option Store :=
  match store.get chat_sk with
  | some item =>
    obind (item.setKey "transcript" new_transcript) fun it1 =>
    obind (it1.setKey "updated_at" (.str now)) fun it2 =>
    some (store.put chat_sk it2)
  | none =>
    some (store.put chat_sk (Json.obj
      [("transcript", new_transcript), ("updated_at", .str now)]))

/-- Embedding of `store_chat_transcript(...)`: append the new user turn and
the new assistant turn to the existing transcript and issue the two-field
update. -/
def store_chat_transcript (store : Store) (chat_sk : String)
    (existing_transcript : List Json) (user_message assistant_response now : String) :
    Option Store :=
  update_chat store chat_sk (.arr (existing_transcript ++ [
    Json.obj [("role", .str "user"), ("content", .str user_message)],
    Json.obj [("role", .str "assistant"), ("content", .str assistant_response)]])) now

/-- The step-8 emission guard: `critic_verdict is None or critic_verdict ==
'PASS'` (Python `==` between a non-string value and `'PASS'` is `False`). -/
def should_emit (critic_verdict : Option Json) : Bool :=
  match critic_verdict with
  | none => true
  | some (.str s) => s = "PASS"
  | some _ => false

/-- Embedding of `lambda_handler` steps 2 and 7-9 for a request whose genome
resolution and Bedrock call succeeded: load history, formatting of the prior
turns (each must be a dict with `role` and `content`), persist the appended
transcript, conditionally emit `ChatResponseGenerated` (the emitted event
carries the chat sort key), and return the assistant response as the body. -/
def serve_tail (store : Store) (version_sk chat_id user_message assistant_response now : String) :
    Option (Store × List String × String) :=
  obind (get_chat_history (store.get (version_sk ++ "#CHAT#" ++ chat_id))) fun history =>
  obind (match history.1 with | .arr xs => some xs | _ => none) fun existing_transcript =>
  obind (existing_transcript.mapM (fun m =>
    obind (m.lookup "role") fun _ => m.lookup "content")) fun _formatted =>
  obind (store_chat_transcript store (version_sk ++ "#CHAT#" ++ chat_id)
    existing_transcript user_message assistant_response now) fun store2 =>
  some (store2,
    (if should_emit history.2 then [version_sk ++ "#CHAT#" ++ chat_id] else []),
    assistant_response)

end Proxy

/-! ## Helper lemmas -/

theorem obind_some {α β : Type} (a : α) (f : α → Option β) :
    obind (some a) f = f a := rfl

theorem obind_none {α β : Type} (f : α → Option β) :
    obind (none : Option α) f = none := rfl

theorem obind_eq_some {α β : Type} {x : Option α} {f : α → Option β} {b : β} :
    obind x f = some b ↔ ∃ a, x = some a ∧ f a = some b := by
  cases x <;> simp [obind]

theorem lookup_setField_self (fs : List (String × Json)) (k : String) (v : Json) :
    (setField fs k v).lookup k = some v := by
  induction fs with
  | nil => simp [setField, List.lookup]
  | cons f fs ih =>
    cases f with
    | mk k0 v0 =>
      by_cases h : k0 = k
      · subst h
        simp [setField, List.lookup]
      · have hb : (k == k0) = false := beq_eq_false_iff_ne.mpr (Ne.symm h)
        simp [setField, h, List.lookup, hb, ih]

theorem lookup_setField_ne (fs : List (String × Json)) (k k' : String) (v : Json)
    (h : k' ≠ k) : (setField fs k v).lookup k' = fs.lookup k' := by
  induction fs with
  | nil =>
    have hb : (k' == k) = false := beq_eq_false_iff_ne.mpr h
    simp [setField, List.lookup, hb]
  | cons f fs ih =>
    cases f with
    | mk k0 v0 =>
      by_cases h0 : k0 = k
      · subst h0
        have hb : (k' == k0) = false := beq_eq_false_iff_ne.mpr h
        simp [setField, List.lookup, hb]
      · simp only [setField, h0, if_false]
        by_cases h1 : k' = k0
        · subst h1
          simp [List.lookup]
        · have hb : (k' == k0) = false := beq_eq_false_iff_ne.mpr h1
          simp [List.lookup, hb, ih]

theorem Store.get_put_self (s : Store) (k : String) (v : Json) :
    (s.put k v).get k = some v := lookup_setField_self s k v

theorem Store.get_put_ne (s : Store) (k k' : String) (v : Json) (h : k' ≠ k) :
    (s.put k v).get k' = s.get k' := lookup_setField_ne s k k' v h

theorem Store.get_apply_eq_none (s : Store) (ops : List (String × Json)) (k : String) :
    (s.apply ops).get k = none ↔ s.get k = none ∧ k ∉ ops.map Prod.fst := by
  induction ops generalizing s with
  | nil => simp [Store.apply]
  | cons op ops ih =>
    simp only [Store.apply, List.foldl_cons, List.map_cons, List.mem_cons]
    rw [show (List.foldl (fun st o => Store.put st o.1 o.2) (s.put op.1 op.2) ops) = (s.put op.1 op.2).apply ops from rfl]
    rw [ih]
    by_cases h : k = op.1
    · subst h
      simp [Store.get_put_self]
    · simp [Store.get_put_ne s op.1 k op.2 h, h]

theorem Json.lookup_obj_of_lookup_some {j : Json} {k : String} {v : Json}
    (h : j.lookup k = some v) : ∃ fs, j = .obj fs := by
  cases j <;> simp [Json.lookup] at h ⊢

theorem Json.pyGet_of_lookup_some {fs : List (String × Json)} {k : String} {v d : Json}
    (h : (Json.obj fs).lookup k = some v) : (Json.obj fs).pyGet k d = some v := by
  simp [Json.lookup] at h
  simp [Json.pyGet, h]

theorem appendNe (s a b : String) (h : a ≠ b) : s ++ a ≠ s ++ b := by
  intro he
  apply h
  have hd := congrArg String.data he
  simp [String.data_append] at hd
  exact String.ext hd

/-! ## Claim C1 — shared escalation policy -/

/-- C1 counterexample: at retry count 0 the Supervisor's failure handler
returns a non-terminal result that does NOT carry the retry count — the
returned dict is exactly `compliant: False` plus the reason, with no
`retryCount` field (the claim asserts the unchanged retry count is carried
for every invocation of either handler). -/
theorem C1_counterexample :
    (Supervisor.handle_failure "AGENT#hotel" "VERSION#2025-01-01T00:00:00"
      (some "VERSION#2025-01-01T00:00:00#CHAT#c1") 0 "safety audit failed" none
      "t1" "2025-01-02T00:00:00Z").2.lookup "retryCount" = none ∧
    (Supervisor.handle_failure "AGENT#hotel" "VERSION#2025-01-01T00:00:00"
      (some "VERSION#2025-01-01T00:00:00#CHAT#c1") 0 "safety audit failed" none
      "t1" "2025-01-02T00:00:00Z").1 = [] := by
  constructor <;> rfl

/-- C1 (amended): for either failure handler with retry count strictly below
1, the result is non-terminal and no ticket is written; the Judge's result
carries the unchanged retry count while the Supervisor's carries only
`compliant: False` and the reason.  With retry count at or above 1, both
handlers write a Ticket with status OPEN and type SYSTEM referencing the
chat and (if any) the failed challenger, and return a terminal result naming
the ticket. -/
theorem C1_escalation_policy :
    (∀ (pk gsk csk : String) (retry : Int) (reason : String) (fc : Option String) (tid ts : String),
      retry < 1 →
      Judge.handle_failure pk gsk csk retry reason fc tid ts =
        ([], Json.obj [
          ("improved", .bool false),
          ("reason", .str reason),
          ("retryCount", .num retry)])) ∧
    (∀ (pk gsk : String) (csk : Option String) (retry : Int) (reason : String) (fc : Option String) (tid ts : String),
      retry < 1 →
      Supervisor.handle_failure pk gsk csk retry reason fc tid ts =
        ([], Json.obj [("compliant", .bool false), ("reason", .str reason)])) ∧
    (∀ (pk gsk csk : String) (retry : Int) (reason : String) (fc : Option String) (tid ts : String),
      1 ≤ retry →
      Judge.handle_failure pk gsk csk retry reason fc tid ts =
        ([(gsk ++ "#TICKET#" ++ tid, Json.obj [
            ("PK", .str pk),
            ("SK", .str (gsk ++ "#TICKET#" ++ tid)),
            ("EntityType", .str "Ticket"),
            ("timestamp", .str ts),
            ("type", .str "SYSTEM"),
            ("status", .str "OPEN"),
            ("chat_sk", .str csk),
            ("challenger_sk", .str (fc.getD "NONE_SELECTED")),
            ("feedback", .str "Automated Alert: Judge marked evolution as FAIL after retries."),
            ("ai_analysis", .str reason)])],
         Json.obj [
          ("improved", .bool false),
          ("reason", .str ("Final Failure. Ticket Created: " ++ tid)),
          ("ticket_sk", .str (gsk ++ "#TICKET#" ++ tid)),
          ("retryCount", .num retry)])) ∧
    (∀ (pk gsk : String) (csk : Option String) (retry : Int) (reason : String) (fc : Option String) (tid ts : String),
      1 ≤ retry →
      Supervisor.handle_failure pk gsk csk retry reason fc tid ts =
        ([(gsk ++ "#TICKET#" ++ tid, Json.obj [
            ("PK", .str pk),
            ("SK", .str (gsk ++ "#TICKET#" ++ tid)),
            ("EntityType", .str "Ticket"),
            ("timestamp", .str ts),
            ("type", .str "SYSTEM"),
            ("status", .str "OPEN"),
            ("chat_sk", .str (match csk with
              | some s => if s = "" then "UNKNOWN" else s
              | none => "UNKNOWN")),
            ("challenger_sk", .str (fc.getD "NONE")),
            ("feedback", .str "Automated Alert: Supervisor Safety Check Failed."),
            ("ai_analysis", .str reason)])],
         Json.obj [
          ("compliant", .bool false),
          ("reason", .str ("Final Failure. Ticket Created: " ++ tid))])) := by
  refine ⟨?_, ?_, ?_, ?_⟩
  · intro pk gsk csk retry reason fc tid ts h
    simp [Judge.handle_failure, h]
  · intro pk gsk csk retry reason fc tid ts h
    simp [Supervisor.handle_failure, h]
  · intro pk gsk csk retry reason fc tid ts h
    have h' : ¬ retry < 1 := by omega
    simp [Judge.handle_failure, h']
  · intro pk gsk csk retry reason fc tid ts h
    have h' : ¬ retry < 1 := by omega
    simp [Supervisor.handle_failure, h']

/-- C1 witness: the amended escalation theorem evaluated at concrete inputs
in both regimes (retry count 0 for the non-terminal branch of each handler,
retry count 1 for the ticket branch of each handler). -/
theorem C1_escalation_policy_witness :
    Judge.handle_failure "AGENT#a" "VERSION#t0" "VERSION#t0#CHAT#c" 0 "no improvement" none "j1" "z1" =
      ([], Json.obj [
        ("improved", .bool false),
        ("reason", .str "no improvement"),
        ("retryCount", .num 0)]) ∧
    Supervisor.handle_failure "AGENT#a" "VERSION#t0" (some "VERSION#t0#CHAT#c") 0 "unsafe" none "s1" "z2" =
      ([], Json.obj [("compliant", .bool false), ("reason", .str "unsafe")]) ∧
    Judge.handle_failure "AGENT#a" "VERSION#t0" "VERSION#t0#CHAT#c" 1 "still failing"
        (some "VERSION#t0#CHALLENGER#attempt-4") "j2" "z3" =
      ([("VERSION#t0#TICKET#j2", Json.obj [
          ("PK", .str "AGENT#a"),
          ("SK", .str "VERSION#t0#TICKET#j2"),
          ("EntityType", .str "Ticket"),
          ("timestamp", .str "z3"),
          ("type", .str "SYSTEM"),
          ("status", .str "OPEN"),
          ("chat_sk", .str "VERSION#t0#CHAT#c"),
          ("challenger_sk", .str "VERSION#t0#CHALLENGER#attempt-4"),
          ("feedback", .str "Automated Alert: Judge marked evolution as FAIL after retries."),
          ("ai_analysis", .str "still failing")])],
       Json.obj [
        ("improved", .bool false),
        ("reason", .str "Final Failure. Ticket Created: j2"),
        ("ticket_sk", .str "VERSION#t0#TICKET#j2"),
        ("retryCount", .num 1)]) ∧
    Supervisor.handle_failure "AGENT#a" "VERSION#t0" (some "VERSION#t0#CHAT#c") 1 "still unsafe"
        (some "VERSION#t0#CHALLENGER#attempt-5") "s2" "z4" =
      ([("VERSION#t0#TICKET#s2", Json.obj [
          ("PK", .str "AGENT#a"),
          ("SK", .str "VERSION#t0#TICKET#s2"),
          ("EntityType", .str "Ticket"),
          ("timestamp", .str "z4"),
          ("type", .str "SYSTEM"),
          ("status", .str "OPEN"),
          ("chat_sk", .str "VERSION#t0#CHAT#c"),
          ("challenger_sk", .str "VERSION#t0#CHALLENGER#attempt-5"),
          ("feedback", .str "Automated Alert: Supervisor Safety Check Failed."),
          ("ai_analysis", .str "still unsafe")])],
       Json.obj [
        ("compliant", .bool false),
        ("reason", .str "Final Failure. Ticket Created: s2")]) := by
  refine ⟨?_, ?_, ?_, ?_⟩
  · exact C1_escalation_policy.1 "AGENT#a" "VERSION#t0" "VERSION#t0#CHAT#c" 0 "no improvement" none "j1" "z1" (by decide)
  · exact C1_escalation_policy.2.1 "AGENT#a" "VERSION#t0" (some "VERSION#t0#CHAT#c") 0 "unsafe" none "s1" "z2" (by decide)
  · exact C1_escalation_policy.2.2.1 "AGENT#a" "VERSION#t0" "VERSION#t0#CHAT#c" 1 "still failing"
      (some "VERSION#t0#CHALLENGER#attempt-4") "j2" "z3" (by decide)
  · have h := C1_escalation_policy.2.2.2 "AGENT#a" "VERSION#t0" (some "VERSION#t0#CHAT#c") 1 "still unsafe"
      (some "VERSION#t0#CHALLENGER#attempt-5") "s2" "z4" (by decide)
    simpa using h

/-! ## Claim C4 — Judge compliance stage on arbitration errors -/

/-- C4 (code bug): when the arbitration call errors or its output cannot be
parsed, `invoke_judge_model` swallows the exception and returns the empty
dict, so `run_compliance_stage` returns `\x7b\x7d` — not a `passed: False`
verdict (its own fail-closed `except` arm is unreachable) — and the Judge's
winner branch then raises an uncaught KeyError on `compliance_result['passed']`
and aborts (`none`) instead of routing into `handle_failure`.  The challenger
is still never returned as a success record, but the fail-closed routing the
claim (and the spec) describe does not happen. -/
theorem C4_compliance_error_crash :
    (∀ genome : Json, Judge.run_compliance_stage genome none = Json.obj []) ∧
    (∀ (pk gsk csk : String) (retry : Int) (wsk wresp : String) (genome : Json)
      (tid ts : String),
      Judge.winner_branch pk gsk csk retry wsk wresp genome none tid ts = none) := by
  constructor
  · intro genome
    rfl
  · intro pk gsk csk retry wsk wresp genome tid ts
    rfl

/-! ## Claim C5 — Supervisor safety audit fails closed -/

/-- C5: for a structurally sound winner (dict brain containing `persona` and
`operational_guidelines`, dict resources), an audit error makes
`validate_genome_safety` return unsafe (fail closed), the Supervisor routes
into the shared escalation handler with the winner as failed challenger, no
new GenomeVersion is written and the CurrentPointer is untouched (every
written item is a Ticket, never under the CURRENT key); ambiguous audit
output (neither starting with SAFE nor containing VIOLATION) is instead
treated as safe. -/
theorem C5_audit_error_fail_closed
    (store : Store) (pk gsk : String) (csk : Option String) (retry : Int)
    (wsk : String) (preason : Json) (e : String)
    (now_iso new_hash tid tts : String)
    (ifs bfs rfs : List (String × Json))
    (hwin : store.get wsk = some (Json.obj ifs))
    (hbrain : (Json.obj ifs).lookup "brain" = some (Json.obj bfs))
    (hres : (Json.obj ifs).pyGet "resources" (Json.obj []) = some (Json.obj rfs))
    (hpersona : bfs.any (fun f => f.1 == "persona") = true)
    (hguid : bfs.any (fun f => f.1 == "operational_guidelines") = true) :
    Supervisor.validate_genome_safety (Json.obj ifs) (.err e) =
      some ⟨false, "Audit System Offline: " ++ e⟩ ∧
    Supervisor.lambda_handler store pk gsk csk retry wsk preason (.err e)
        now_iso new_hash tid tts =
      some (Supervisor.handle_failure pk gsk csk retry
        ("Supervisor Safety Protocol Violation: " ++ ("Audit System Offline: " ++ e))
        (some wsk) tid tts) ∧
    (∀ op ∈ (Supervisor.handle_failure pk gsk csk retry
        ("Supervisor Safety Protocol Violation: " ++ ("Audit System Offline: " ++ e))
        (some wsk) tid tts).1,
      op.1 ≠ "CURRENT" ∧ op.2.lookup "EntityType" = some (.str "Ticket")) ∧
    ((Supervisor.handle_failure pk gsk csk retry
        ("Supervisor Safety Protocol Violation: " ++ ("Audit System Offline: " ++ e))
        (some wsk) tid tts).2.lookup "compliant" = some (.bool false)) ∧
    (∀ t : String, pyStartsWith t "SAFE" = false → strContains t "VIOLATION" = false →
      Supervisor.validate_genome_safety (Json.obj ifs) (.ok t) =
        some ⟨true, "Passed (Ambiguous Audit)"⟩) := by
  have hlook : List.lookup "brain" ifs = some (Json.obj bfs) := by
    simpa [Json.lookup] using hbrain
  have hpgb : (Json.obj ifs).pyGet "brain" (Json.obj []) = some (Json.obj bfs) := by
    simp [Json.pyGet, hlook]
  have hne : bfs ≠ [] := by
    intro hnil
    rw [hnil] at hpersona
    simp at hpersona
  have htruthy : pythonTruthy (Json.obj bfs) = true := by
    cases bfs with
    | nil => exact absurd rfl hne
    | cons f fs => simp [pythonTruthy]
  have hres' : (List.lookup "resources" ifs).getD (Json.obj []) = Json.obj rfs := by
    simpa [Json.pyGet] using hres
  have hval : Supervisor.validate_genome_safety (Json.obj ifs) (.err e) =
      some ⟨false, "Audit System Offline: " ++ e⟩ := by
    simp [Supervisor.validate_genome_safety, Json.pyGet, hlook, hres', obind,
      pyIn, htruthy, hpersona, hguid]
  refine ⟨hval, ?_, ?_, ?_, ?_⟩
  · simp [Supervisor.lambda_handler, hwin, hval, obind_some, Supervisor.SafetyCheck.safe]
  · intro op hop
    by_cases hr : retry < 1
    · simp [Supervisor.handle_failure, hr] at hop
    · simp [Supervisor.handle_failure, hr] at hop
      subst hop
      refine ⟨?_, rfl⟩
      intro habs
      have hd := congrArg String.data habs
      simp [String.data_append] at hd
      have hlen := congrArg List.length hd
      simp [List.length_append] at hlen
      omega
  · by_cases hr : retry < 1
    · simp [Supervisor.handle_failure, hr]
      rfl
    · simp [Supervisor.handle_failure, hr]
      rfl
  · intro t hns hnv
    simp [Supervisor.validate_genome_safety, Json.pyGet, hlook, hres', obind,
      pyIn, htruthy, hpersona, hguid, hns, hnv]

/-- C5 witness: the fail-closed theorem applied to a concrete winner
challenger and a concrete audit error. -/
theorem C5_audit_error_fail_closed_witness :
    Supervisor.validate_genome_safety
      (Json.obj [
        ("brain", Json.obj [
          ("persona", Json.obj [("tone", Json.str "Professional")]),
          ("operational_guidelines", Json.arr [])]),
        ("resources", Json.obj [("policy_text", Json.str "Be polite.")])])
      (.err "ThrottlingException") =
      some ⟨false, "Audit System Offline: ThrottlingException"⟩ :=
  (C5_audit_error_fail_closed
    [("VERSION#t0#CHALLENGER#attempt-1", Json.obj [
        ("brain", Json.obj [
          ("persona", Json.obj [("tone", Json.str "Professional")]),
          ("operational_guidelines", Json.arr [])]),
        ("resources", Json.obj [("policy_text", Json.str "Be polite.")])])]
    "AGENT#a" "VERSION#t0" (some "VERSION#t0#CHAT#c") 0
    "VERSION#t0#CHALLENGER#attempt-1" (Json.str "improved") "ThrottlingException"
    "2025-02-02" "uuid-1" "t1" "z1"
    [("brain", Json.obj [
        ("persona", Json.obj [("tone", Json.str "Professional")]),
        ("operational_guidelines", Json.arr [])]),
     ("resources", Json.obj [("policy_text", Json.str "Be polite.")])]
    [("persona", Json.obj [("tone", Json.str "Professional")]),
     ("operational_guidelines", Json.arr [])]
    [("policy_text", Json.str "Be polite.")]
    (by rfl) (by rfl) (by rfl) (by rfl) (by rfl)).1

/-! ## Claim C6 — promotion round-trip -/

/-- C6: when the Supervisor promotes a safe winner, the minted GenomeVersion
copies the winner's `brain`, `config`, `resources`, `capabilities` and
`evolution_config` sections exactly, its `metadata.deployment_state` is
ACTIVE, and the ordered write list puts the new version strictly before the
CurrentPointer update that references it. -/
theorem C6_promotion_roundtrip
    (store : Store) (pk gsk : String) (csk : Option String) (retry : Int)
    (wsk : String) (preason : Json) (audit : Supervisor.AuditOutcome)
    (now nh tid tts sreason : String)
    (ifs mfs : List (String × Json))
    (vbrain vconfig vres vcaps vevo : Json)
    (hwin : store.get wsk = some (Json.obj ifs))
    (hsafe : Supervisor.validate_genome_safety (Json.obj ifs) audit = some ⟨true, sreason⟩)
    (hbrain : List.lookup "brain" ifs = some vbrain)
    (hconfig : List.lookup "config" ifs = some vconfig)
    (hres : List.lookup "resources" ifs = some vres)
    (hcaps : List.lookup "capabilities" ifs = some vcaps)
    (hevo : List.lookup "evolution_config" ifs = some vevo)
    (hmeta : (List.lookup "metadata" ifs).getD (Json.obj []) = Json.obj mfs) :
    ∃ new_genome pointer : Json,
      Supervisor.lambda_handler store pk gsk csk retry wsk preason audit now nh tid tts =
        some ([("VERSION#" ++ now, new_genome), ("CURRENT", pointer)],
          Json.obj [
            ("status", .str "SUCCESS"),
            ("compliant", .bool true),
            ("new_active_version", .str ("VERSION#" ++ now)),
            ("promotion_reason", preason)]) ∧
      new_genome.lookup "brain" = some vbrain ∧
      new_genome.lookup "config" = some vconfig ∧
      new_genome.lookup "resources" = some vres ∧
      new_genome.lookup "capabilities" = some vcaps ∧
      new_genome.lookup "evolution_config" = some vevo ∧
      (∃ md, new_genome.lookup "metadata" = some md ∧
        md.lookup "deployment_state" = some (.str "ACTIVE")) ∧
      pointer.lookup "active_version_sk" = some (.str ("VERSION#" ++ now)) := by
  refine ⟨Json.obj [
      ("PK", .str pk),
      ("SK", .str ("VERSION#" ++ now)),
      ("EntityType", .str "Genome"),
      ("brain", vbrain),
      ("config", vconfig),
      ("resources", vres),
      ("capabilities", vcaps),
      ("evolution_config", vevo),
      ("economics", (List.lookup "economics" ifs).getD (Json.obj [])),
      ("metadata", Json.obj [
        ("name", .str (((mfs.lookup "name").getD (Json.str "Agent")).render ++ " (v" ++ pyTake now 10 ++ ")")),
        ("description", .str ("Evolved from " ++ gsk)),
        ("creator", .str "Supervisor_Agent"),
        ("version_hash", .str nh),
        ("parent_hash", (mfs.lookup "parent_hash").getD (Json.str "unknown")),
        ("deployment_state", .str "ACTIVE"),
        ("mutation_reason", preason),
        ("deployed_at", .str now)])],
    Json.obj [
      ("PK", .str pk),
      ("SK", .str "CURRENT"),
      ("active_version_sk", .str ("VERSION#" ++ now)),
      ("last_updated", .str now),
      ("updated_by", .str "Supervisor_Agent")],
    ?_, rfl, rfl, rfl, rfl, rfl, ⟨_, rfl, rfl⟩, rfl⟩
  simp [Supervisor.lambda_handler, hwin, hsafe, obind, Json.pyGet,
    hbrain, hconfig, hres, hcaps, hevo, hmeta]

/-- C6 witness: a concrete promotion run — winner fetched from a one-entry
store, audit answers SAFE, and the two writes and copied sections are
produced as the theorem states. -/
theorem C6_promotion_roundtrip_witness :
    ∃ new_genome pointer : Json,
      Supervisor.lambda_handler
        [("VERSION#t0#CHALLENGER#attempt-2", Json.obj [
          ("brain", Json.obj [
            ("persona", Json.obj [("tone", Json.str "Professional (Stricter)")]),
            ("operational_guidelines", Json.arr [Json.str "Strictly adhere to the provided policy."])]),
          ("config", Json.obj [("model_id", Json.str "us.amazon.nova-micro-v1:0")]),
          ("resources", Json.obj [("policy_text", Json.str "Be polite.")]),
          ("capabilities", Json.obj []),
          ("evolution_config", Json.obj []),
          ("metadata", Json.obj [("name", Json.str "Agent"), ("parent_hash", Json.str "abc")])])]
        "AGENT#a" "VERSION#t0" (some "VERSION#t0#CHAT#c") 0
        "VERSION#t0#CHALLENGER#attempt-2" (Json.str "better") (.ok "SAFE")
        "2025-02-02T10:00:00" "uuid-9" "t1" "z1" =
        some ([("VERSION#" ++ "2025-02-02T10:00:00", new_genome), ("CURRENT", pointer)],
          Json.obj [
            ("status", .str "SUCCESS"),
            ("compliant", .bool true),
            ("new_active_version", .str ("VERSION#" ++ "2025-02-02T10:00:00")),
            ("promotion_reason", Json.str "better")]) ∧
      new_genome.lookup "brain" = some (Json.obj [
        ("persona", Json.obj [("tone", Json.str "Professional (Stricter)")]),
        ("operational_guidelines", Json.arr [Json.str "Strictly adhere to the provided policy."])]) ∧
      new_genome.lookup "config" = some (Json.obj [("model_id", Json.str "us.amazon.nova-micro-v1:0")]) ∧
      new_genome.lookup "resources" = some (Json.obj [("policy_text", Json.str "Be polite.")]) ∧
      new_genome.lookup "capabilities" = some (Json.obj []) ∧
      new_genome.lookup "evolution_config" = some (Json.obj []) ∧
      (∃ md, new_genome.lookup "metadata" = some md ∧
        md.lookup "deployment_state" = some (.str "ACTIVE")) ∧
      pointer.lookup "active_version_sk" = some (.str ("VERSION#" ++ "2025-02-02T10:00:00")) :=
  C6_promotion_roundtrip _ "AGENT#a" "VERSION#t0" (some "VERSION#t0#CHAT#c") 0
    "VERSION#t0#CHALLENGER#attempt-2" (Json.str "better") (.ok "SAFE")
    "2025-02-02T10:00:00" "uuid-9" "t1" "z1" "Passed Policy Audit"
    _ [("name", Json.str "Agent"), ("parent_hash", Json.str "abc")]
    _ _ _ _ _ (by rfl) (by rfl) (by rfl) (by rfl) (by rfl) (by rfl) (by rfl) (by rfl)

/-! ## Claim C7 — challenger lineage invariants -/

/-- Values fetched with `.get` can only come from dicts. -/
theorem Json.obj_of_pyGet_some {j : Json} {k : String} {d v : Json}
    (h : j.pyGet k d = some v) : ∃ fs, j = .obj fs := by
  cases j <;> simp [Json.pyGet] at h ⊢

/-- C7: every Challenger assembled from a parent whose metadata carries a
`version_hash` has `metadata.parent_hash` equal to that hash,
`metadata.deployment_state` equal to PENDING_APPROVAL, and
`metadata.version_hash` equal to the content hash computed over the mutated
brain — for any content-hash function. -/
theorem C7_challenger_lineage (compute_hash : Json → String)
    (original mutation_brain critic_issue : Json) (challenger_sk : String)
    (ch : Json) (mfs : List (String × Json)) (vh : Json)
    (hassemble : Mutator.assemble_complete_genome compute_hash original
      mutation_brain critic_issue challenger_sk = some ch)
    (hmeta : original.pyGet "metadata" (.obj []) = some (Json.obj mfs))
    (hvh : List.lookup "version_hash" mfs = some vh) :
    ∃ md, ch.lookup "metadata" = some md ∧
      md.lookup "parent_hash" = some vh ∧
      md.lookup "deployment_state" = some (.str "PENDING_APPROVAL") ∧
      md.lookup "version_hash" = some (.str (compute_hash mutation_brain)) ∧
      ch.lookup "SK" = some (.str challenger_sk) ∧
      ch.lookup "brain" = some mutation_brain := by
  simp only [Mutator.assemble_complete_genome, obind_eq_some] at hassemble
  obtain ⟨m0, hm0, m1, hm1, m2, hm2, m3, hm3, m4, hm4, m5, hm5, m6, hm6, m7,
    hm7, m8, hm8, m9, hm9, m10, hm10, m11, hm11, m12, hm12, hch⟩ := hassemble
  rw [hmeta] at hm0
  obtain rfl : Json.obj mfs = m0 := Option.some.inj hm0
  rw [show (Json.obj mfs).pyGet "version_hash" (.str "unknown") =
      some vh by simp [Json.pyGet, hvh]] at hm3
  obtain rfl : vh = m3 := Option.some.inj hm3
  obtain rfl := Option.some.inj hch
  exact ⟨_, rfl, rfl, rfl, rfl, rfl, rfl⟩

/-- C7 witness: the lineage theorem applied to a concrete parent genome and
mutated brain (with a constant stand-in for the SHA-256 content hash). -/
theorem C7_challenger_lineage_witness :
    ∃ ch : Json,
      Mutator.assemble_complete_genome (fun _ => "h16") (Json.obj [
          ("PK", Json.str "AGENT#a"),
          ("SK", Json.str "VERSION#T1"),
          ("metadata", Json.obj [("version_hash", Json.str "abc")])])
        (Json.obj [("persona", Json.obj [("tone", Json.str "Professional (Stricter)")])])
        (Json.obj [("rule", Json.str "politeness"), ("reason", Json.str "rude tone")])
        "VERSION#T1#CHALLENGER#attempt-1" = some ch ∧
      ∃ md, ch.lookup "metadata" = some md ∧
        md.lookup "parent_hash" = some (Json.str "abc") ∧
        md.lookup "deployment_state" = some (.str "PENDING_APPROVAL") ∧
        md.lookup "version_hash" = some (.str "h16") ∧
        ch.lookup "SK" = some (.str "VERSION#T1#CHALLENGER#attempt-1") ∧
        ch.lookup "brain" = some (Json.obj [("persona", Json.obj [("tone", Json.str "Professional (Stricter)")])]) := by
  have hs : (Mutator.assemble_complete_genome (fun _ => "h16") (Json.obj [
      ("PK", Json.str "AGENT#a"),
      ("SK", Json.str "VERSION#T1"),
      ("metadata", Json.obj [("version_hash", Json.str "abc")])])
    (Json.obj [("persona", Json.obj [("tone", Json.str "Professional (Stricter)")])])
    (Json.obj [("rule", Json.str "politeness"), ("reason", Json.str "rude tone")])
    "VERSION#T1#CHALLENGER#attempt-1").isSome = true := by rfl
  obtain ⟨ch, hch⟩ := Option.isSome_iff_exists.mp hs
  exact ⟨ch, hch,
    C7_challenger_lineage (fun _ => "h16") _ _ _ _ ch
      [("version_hash", Json.str "abc")] (Json.str "abc") hch (by rfl) (by rfl)⟩

/-! ## Claims C3 and C10 — challenger attempt numbering across retry rounds -/

/-- The challenger sort keys produced by the write loop are exactly the
attempt numbers `base + i, base + i + 1, …`, one per mutation, and they are
the keys of the emitted put operations in order. -/
theorem Mutator.write_loop_keys (compute_hash : Json → String)
    (original critic_issue : Json) (ts : String) (base : Nat) :
    ∀ (ms : List Json) (i : Nat) (ops : List (String × Json)) (sks : List String),
      Mutator.write_loop compute_hash original critic_issue ts base ms i = some (ops, sks) →
      sks = (List.range ms.length).map (fun k => Mutator.challenger_sk_string ts (base + i + k)) ∧
      ops.map Prod.fst = sks := by
  intro ms
  induction ms with
  | nil =>
    intro i ops sks h
    simp only [Mutator.write_loop, Option.some.injEq, Prod.mk.injEq] at h
    obtain ⟨rfl, rfl⟩ := h
    simp
  | cons m rest ih =>
    intro i ops sks h
    simp only [Mutator.write_loop, obind_eq_some] at h
    obtain ⟨ch, hch, ⟨rops, rsks⟩, hrec, hpair⟩ := h
    simp only [Option.some.injEq, Prod.mk.injEq] at hpair
    obtain ⟨rfl, rfl⟩ := hpair
    obtain ⟨ihs, ihops⟩ := ih (i + 1) rops rsks hrec
    constructor
    · rw [ihs]
      simp only [List.length_cons]
      rw [List.range_succ_eq_map]
      simp only [List.map_cons, List.map_map, Function.comp]
      rw [show (fun k => Mutator.challenger_sk_string ts (base + (i + 1) + k)) =
          (fun k => Mutator.challenger_sk_string ts (base + i + (k + 1))) from
        funext (fun k => by rw [show base + (i + 1) + k = base + i + (k + 1) from by omega])]
      rfl
    · simp [ihops]

/-- Challenger sort keys with distinct attempt numbers differ. -/
theorem Mutator.challenger_sk_ne (ts : String) (a b : Nat)
    (h : toString a ≠ toString b) :
    Mutator.challenger_sk_string ts a ≠ Mutator.challenger_sk_string ts b := by
  unfold Mutator.challenger_sk_string
  exact appendNe _ _ _ h

/-- C3: for the same parent version (well-formed `VERSION#<ts>` sort key), a
retry-count-0 Mutator round numbers its three challengers 1, 2, 3 and a
retry-count-1 round numbers them 4, 5, 6, so the generated challenger sort
keys of the two rounds are pairwise distinct. -/
theorem C3_attempt_numbering
    (compute_hash : Json → String) (original : Json) (sk ts : String)
    (muts0 muts1 issue0 issue1 : Json) (now0 now1 : String)
    (ops0 ops1 : List (String × Json)) (sks0 sks1 : List String)
    (items0 items1 : List Json)
    (hsk : original.lookup "SK" = some (.str sk))
    (hts : (pySplit sk '#')[1]? = some ts)
    (hm0 : pyIterate muts0 = some items0) (hl0 : items0.length = 3)
    (hm1 : pyIterate muts1 = some items1) (hl1 : items1.length = 3)
    (hw0 : Mutator.write_complete_challengers compute_hash original muts0 issue0 0 now0 = some (ops0, sks0))
    (hw1 : Mutator.write_complete_challengers compute_hash original muts1 issue1 1 now1 = some (ops1, sks1)) :
    sks0 = [Mutator.challenger_sk_string ts 1, Mutator.challenger_sk_string ts 2,
      Mutator.challenger_sk_string ts 3] ∧
    sks1 = [Mutator.challenger_sk_string ts 4, Mutator.challenger_sk_string ts 5,
      Mutator.challenger_sk_string ts 6] ∧
    ∀ x ∈ sks0, x ∉ sks1 := by
  have hets : ∀ now, Mutator.extract_timestamp original now = ts := by
    intro now
    simp [Mutator.extract_timestamp, hsk, hts]
  simp only [Mutator.write_complete_challengers, hets, hm0, hm1, obind_some] at hw0 hw1
  norm_num at hw0 hw1
  obtain ⟨h0s, -⟩ := Mutator.write_loop_keys compute_hash original issue0 ts 1 items0 0 ops0 sks0 hw0
  obtain ⟨h1s, -⟩ := Mutator.write_loop_keys compute_hash original issue1 ts 4 items1 0 ops1 sks1 hw1
  have e0 : sks0 = [Mutator.challenger_sk_string ts 1, Mutator.challenger_sk_string ts 2,
      Mutator.challenger_sk_string ts 3] := by
    rw [h0s, hl0]
    rfl
  have e1 : sks1 = [Mutator.challenger_sk_string ts 4, Mutator.challenger_sk_string ts 5,
      Mutator.challenger_sk_string ts 6] := by
    rw [h1s, hl1]
    rfl
  refine ⟨e0, e1, ?_⟩
  rw [e0, e1]
  intro x hx
  simp only [List.mem_cons, List.not_mem_nil, or_false] at hx
  simp only [List.mem_cons, List.not_mem_nil, or_false, not_or]
  rcases hx with rfl | rfl | rfl <;>
    refine ⟨?_, ?_, ?_⟩ <;>
    · apply Mutator.challenger_sk_ne
      decide

/-- C3 witness: the numbering theorem applied to a concrete parent version
and two concrete Mutator rounds (retry counts 0 and 1). -/
theorem C3_attempt_numbering_witness :
    ∃ w0 w1 : List (String × Json) × List String,
      Mutator.write_complete_challengers (fun _ => "h16")
        (Json.obj [("PK", Json.str "AGENT#a"), ("SK", Json.str "VERSION#T1"),
          ("metadata", Json.obj [("version_hash", Json.str "abc")])])
        (Json.arr [Json.obj [], Json.obj [], Json.obj []])
        (Json.obj [("reason", Json.str "rude tone")]) 0 "2025-03-03" = some w0 ∧
      Mutator.write_complete_challengers (fun _ => "h16")
        (Json.obj [("PK", Json.str "AGENT#a"), ("SK", Json.str "VERSION#T1"),
          ("metadata", Json.obj [("version_hash", Json.str "abc")])])
        (Json.arr [Json.obj [], Json.obj [], Json.obj []])
        (Json.obj [("reason", Json.str "still rude")]) 1 "2025-03-04" = some w1 ∧
      w0.2 = ["VERSION#T1#CHALLENGER#attempt-1", "VERSION#T1#CHALLENGER#attempt-2",
        "VERSION#T1#CHALLENGER#attempt-3"] ∧
      w1.2 = ["VERSION#T1#CHALLENGER#attempt-4", "VERSION#T1#CHALLENGER#attempt-5",
        "VERSION#T1#CHALLENGER#attempt-6"] ∧
      ∀ x ∈ w0.2, x ∉ w1.2 := by
  have hs0 : (Mutator.write_complete_challengers (fun _ => "h16")
      (Json.obj [("PK", Json.str "AGENT#a"), ("SK", Json.str "VERSION#T1"),
        ("metadata", Json.obj [("version_hash", Json.str "abc")])])
      (Json.arr [Json.obj [], Json.obj [], Json.obj []])
      (Json.obj [("reason", Json.str "rude tone")]) 0 "2025-03-03").isSome = true := by rfl
  have hs1 : (Mutator.write_complete_challengers (fun _ => "h16")
      (Json.obj [("PK", Json.str "AGENT#a"), ("SK", Json.str "VERSION#T1"),
        ("metadata", Json.obj [("version_hash", Json.str "abc")])])
      (Json.arr [Json.obj [], Json.obj [], Json.obj []])
      (Json.obj [("reason", Json.str "still rude")]) 1 "2025-03-04").isSome = true := by rfl
  obtain ⟨w0, hw0⟩ := Option.isSome_iff_exists.mp hs0
  obtain ⟨w1, hw1⟩ := Option.isSome_iff_exists.mp hs1
  have hw0' : Mutator.write_complete_challengers (fun _ => "h16")
      (Json.obj [("PK", Json.str "AGENT#a"), ("SK", Json.str "VERSION#T1"),
        ("metadata", Json.obj [("version_hash", Json.str "abc")])])
      (Json.arr [Json.obj [], Json.obj [], Json.obj []])
      (Json.obj [("reason", Json.str "rude tone")]) 0 "2025-03-03" = some (w0.1, w0.2) := by
    rw [hw0, Prod.mk.eta]
  have hw1' : Mutator.write_complete_challengers (fun _ => "h16")
      (Json.obj [("PK", Json.str "AGENT#a"), ("SK", Json.str "VERSION#T1"),
        ("metadata", Json.obj [("version_hash", Json.str "abc")])])
      (Json.arr [Json.obj [], Json.obj [], Json.obj []])
      (Json.obj [("reason", Json.str "still rude")]) 1 "2025-03-04" = some (w1.1, w1.2) := by
    rw [hw1, Prod.mk.eta]
  obtain ⟨e0, e1, hdisj⟩ := C3_attempt_numbering (fun _ => "h16") _ "VERSION#T1" "T1"
    _ _ _ _ "2025-03-03" "2025-03-04" w0.1 w1.1 w0.2 w1.2
    [Json.obj [], Json.obj [], Json.obj []] [Json.obj [], Json.obj [], Json.obj []]
    (by rfl) (by rfl) (by rfl) (by rfl) (by rfl) (by rfl) hw0' hw1'
  exact ⟨w0, w1, hw0, hw1, e0.trans (by rfl), e1.trans (by rfl), hdisj⟩

/-- C10 (implicit in the source): every retry count at or above 1 uses base
attempt 4, so a third-or-later mutation round (retry count 2 or more) for the
same parent version produces exactly the second round's challenger sort keys,
and applying its put operations to a store that already holds the second
round's challengers overwrites those entities: every written key already
exists and the store's key set does not grow. -/
theorem C10_retry_round_collision
    (compute_hash : Json → String) (original : Json) (sk ts : String)
    (muts1 muts2 issue1 issue2 : Json) (now1 now2 : String) (r : Int)
    (s : Store)
    (ops1 ops2 : List (String × Json)) (sks1 sks2 : List String)
    (items1 items2 : List Json)
    (hsk : original.lookup "SK" = some (.str sk))
    (hts : (pySplit sk '#')[1]? = some ts)
    (hm1 : pyIterate muts1 = some items1) (hl1 : items1.length = 3)
    (hm2 : pyIterate muts2 = some items2) (hl2 : items2.length = 3)
    (hr : 2 ≤ r)
    (hw1 : Mutator.write_complete_challengers compute_hash original muts1 issue1 1 now1 = some (ops1, sks1))
    (hw2 : Mutator.write_complete_challengers compute_hash original muts2 issue2 r now2 = some (ops2, sks2)) :
    sks2 = sks1 ∧
    (∀ key ∈ ops2.map Prod.fst, (Store.apply s ops1).get key ≠ none) ∧
    (∀ k, ((Store.apply s ops1).apply ops2).get k = none ↔ (Store.apply s ops1).get k = none) := by
  have hets : ∀ now, Mutator.extract_timestamp original now = ts := by
    intro now
    simp [Mutator.extract_timestamp, hsk, hts]
  have hrne : ¬ r = 0 := by omega
  simp only [Mutator.write_complete_challengers, hets, hm1, hm2, obind_some, hrne,
    if_false] at hw1 hw2
  norm_num at hw1
  obtain ⟨h1s, h1ops⟩ := Mutator.write_loop_keys compute_hash original issue1 ts 4 items1 0 ops1 sks1 hw1
  obtain ⟨h2s, h2ops⟩ := Mutator.write_loop_keys compute_hash original issue2 ts 4 items2 0 ops2 sks2 hw2
  have hss : sks2 = sks1 := by
    rw [h1s, h2s, hl1, hl2]
  have hkeys : ops2.map Prod.fst = ops1.map Prod.fst := by
    rw [h1ops, h2ops, hss]
  refine ⟨hss, ?_, ?_⟩
  · intro key hkey
    rw [hkeys] at hkey
    intro hnone
    exact ((Store.get_apply_eq_none s ops1 key).mp hnone).2 hkey
  · intro k
    rw [Store.get_apply_eq_none]
    constructor
    · exact fun h => h.1
    · intro h
      refine ⟨h, ?_⟩
      rw [hkeys]
      exact ((Store.get_apply_eq_none s ops1 k).mp h).2

/-- C10 witness: a concrete retry-count-2 round reproduces the concrete
retry-count-1 round's challenger sort keys, and rewriting them into a store
already holding round 1's output changes no key's presence. -/
theorem C10_retry_round_collision_witness :
    ∃ w1 w2 : List (String × Json) × List String,
      Mutator.write_complete_challengers (fun _ => "h16")
        (Json.obj [("PK", Json.str "AGENT#a"), ("SK", Json.str "VERSION#T1"),
          ("metadata", Json.obj [("version_hash", Json.str "abc")])])
        (Json.arr [Json.obj [], Json.obj [], Json.obj []])
        (Json.obj [("reason", Json.str "round two")]) 1 "2025-03-04" = some w1 ∧
      Mutator.write_complete_challengers (fun _ => "h16")
        (Json.obj [("PK", Json.str "AGENT#a"), ("SK", Json.str "VERSION#T1"),
          ("metadata", Json.obj [("version_hash", Json.str "abc")])])
        (Json.arr [Json.obj [], Json.obj [], Json.obj []])
        (Json.obj [("reason", Json.str "round three")]) 2 "2025-03-05" = some w2 ∧
      w2.2 = w1.2 ∧
      (∀ key ∈ w2.1.map Prod.fst, (Store.apply [] w1.1).get key ≠ none) ∧
      (∀ k, ((Store.apply [] w1.1).apply w2.1).get k = none ↔ (Store.apply [] w1.1).get k = none) := by
  have hs1 : (Mutator.write_complete_challengers (fun _ => "h16")
      (Json.obj [("PK", Json.str "AGENT#a"), ("SK", Json.str "VERSION#T1"),
        ("metadata", Json.obj [("version_hash", Json.str "abc")])])
      (Json.arr [Json.obj [], Json.obj [], Json.obj []])
      (Json.obj [("reason", Json.str "round two")]) 1 "2025-03-04").isSome = true := by rfl
  have hs2 : (Mutator.write_complete_challengers (fun _ => "h16")
      (Json.obj [("PK", Json.str "AGENT#a"), ("SK", Json.str "VERSION#T1"),
        ("metadata", Json.obj [("version_hash", Json.str "abc")])])
      (Json.arr [Json.obj [], Json.obj [], Json.obj []])
      (Json.obj [("reason", Json.str "round three")]) 2 "2025-03-05").isSome = true := by rfl
  obtain ⟨w1, hw1⟩ := Option.isSome_iff_exists.mp hs1
  obtain ⟨w2, hw2⟩ := Option.isSome_iff_exists.mp hs2
  have hw1' : Mutator.write_complete_challengers (fun _ => "h16")
      (Json.obj [("PK", Json.str "AGENT#a"), ("SK", Json.str "VERSION#T1"),
        ("metadata", Json.obj [("version_hash", Json.str "abc")])])
      (Json.arr [Json.obj [], Json.obj [], Json.obj []])
      (Json.obj [("reason", Json.str "round two")]) 1 "2025-03-04" = some (w1.1, w1.2) := by
    rw [hw1, Prod.mk.eta]
  have hw2' : Mutator.write_complete_challengers (fun _ => "h16")
      (Json.obj [("PK", Json.str "AGENT#a"), ("SK", Json.str "VERSION#T1"),
        ("metadata", Json.obj [("version_hash", Json.str "abc")])])
      (Json.arr [Json.obj [], Json.obj [], Json.obj []])
      (Json.obj [("reason", Json.str "round three")]) 2 "2025-03-05" = some (w2.1, w2.2) := by
    rw [hw2, Prod.mk.eta]
  obtain ⟨hss, hexists, hframe⟩ := C10_retry_round_collision (fun _ => "h16") _ "VERSION#T1" "T1"
    _ _ _ _ "2025-03-04" "2025-03-05" 2 [] w1.1 w2.1 w1.2 w2.2
    [Json.obj [], Json.obj [], Json.obj []] [Json.obj [], Json.obj [], Json.obj []]
    (by rfl) (by rfl) (by rfl) (by rfl) (by rfl) (by rfl) (by decide) hw1' hw2'
  exact ⟨w1, w2, hw1, hw2, hss, hexists, hframe⟩

/-! ## Claim C2 — Mutator fan-out of exactly three candidates -/

/-- The fallback generator succeeds with exactly three mutations whenever the
brain carries a dict `persona`, a list `operational_guidelines` and a list
`style_guide`. -/
theorem Mutator.fallback_three (brain : Json)
    (pfs : List (String × Json)) (gs ss : List Json)
    (hp : brain.lookup "persona" = some (Json.obj pfs))
    (hg : brain.lookup "operational_guidelines" = some (Json.arr gs))
    (hs : brain.lookup "style_guide" = some (Json.arr ss)) :
    ∃ ms, Mutator.generate_fallback_mutations brain = some ms ∧ ms.length = 3 := by
  obtain ⟨bfs, rfl⟩ := Json.lookup_obj_of_lookup_some hp
  have hp' : List.lookup "persona" bfs = some (Json.obj pfs) := by
    simpa [Json.lookup] using hp
  have hg' : List.lookup "operational_guidelines" bfs = some (Json.arr gs) := by
    simpa [Json.lookup] using hg
  have hs' : List.lookup "style_guide" bfs = some (Json.arr ss) := by
    simpa [Json.lookup] using hs
  have hmt : ∀ sfx, Mutator.mutate_tone (Json.obj bfs) sfx =
      some (Json.obj (setField bfs "persona" (Json.obj (setField pfs "tone"
        (Json.str (((List.lookup "tone" pfs).getD (Json.str "Professional")).render
          ++ " (" ++ sfx ++ ")")))))) := by
    intro sfx
    simp [Mutator.mutate_tone, Json.lookup, hp', Json.pyGet, Json.setKey, obind]
  have hlookg : ∀ p, (Json.obj (setField bfs "persona" p)).lookup "operational_guidelines" =
      some (Json.arr gs) := by
    intro p
    simp only [Json.lookup]
    rw [lookup_setField_ne bfs "persona" "operational_guidelines" p (by decide)]
    exact hg'
  have hlooks : ∀ p, (Json.obj (setField bfs "persona" p)).lookup "style_guide" =
      some (Json.arr ss) := by
    intro p
    simp only [Json.lookup]
    rw [lookup_setField_ne bfs "persona" "style_guide" p (by decide)]
    exact hs'
  have hap : ∀ p e, Mutator.append_to_list (Json.obj (setField bfs "persona" p))
      "operational_guidelines" e = some (Json.obj (setField (setField bfs "persona" p)
        "operational_guidelines" (Json.arr (gs ++ [Json.str e])))) := by
    intro p e
    simp [Mutator.append_to_list, hlookg p, Json.setKey, obind]
  have has : ∀ p e, Mutator.append_to_list (Json.obj (setField bfs "persona" p))
      "style_guide" e = some (Json.obj (setField (setField bfs "persona" p)
        "style_guide" (Json.arr (ss ++ [Json.str e])))) := by
    intro p e
    simp [Mutator.append_to_list, hlooks p, Json.setKey, obind]
  simp only [Mutator.generate_fallback_mutations, hmt, obind_some, hap, has]
  exact ⟨_, rfl, rfl⟩

/-- C2 counterexample: with a fully well-formed input genome, a generative
path that parses to a dict whose `mutations` value is the number 7 neither
yields three mutations nor triggers the fallback — `len(mutations)` raises a
TypeError and the invocation aborts, so the Mutator does not return 3
candidates. -/
theorem C2_counterexample :
    Mutator.mutations_step
      (Json.obj [
        ("PK", Json.str "AGENT#a"),
        ("SK", Json.str "VERSION#T1"),
        ("brain", Json.obj [
          ("persona", Json.obj [("tone", Json.str "Professional")]),
          ("operational_guidelines", Json.arr []),
          ("style_guide", Json.arr [])])])
      (some (Json.obj [("mutations", Json.num 7)])) = none ∧
    ¬ ∃ ms, Mutator.mutations_step
      (Json.obj [
        ("PK", Json.str "AGENT#a"),
        ("SK", Json.str "VERSION#T1"),
        ("brain", Json.obj [
          ("persona", Json.obj [("tone", Json.str "Professional")]),
          ("operational_guidelines", Json.arr []),
          ("style_guide", Json.arr [])])])
      (some (Json.obj [("mutations", Json.num 7)])) = some (Json.arr ms) ∧ ms.length = 3 := by
  refine ⟨rfl, ?_⟩
  rintro ⟨ms, h, -⟩
  rw [show Mutator.mutations_step
      (Json.obj [
        ("PK", Json.str "AGENT#a"),
        ("SK", Json.str "VERSION#T1"),
        ("brain", Json.obj [
          ("persona", Json.obj [("tone", Json.str "Professional")]),
          ("operational_guidelines", Json.arr []),
          ("style_guide", Json.arr [])])])
      (some (Json.obj [("mutations", Json.num 7)])) = none from rfl] at h
  exact Option.noConfusion h

/-- C2 (amended): for every genome whose brain has a dict `persona`, a list
`operational_guidelines` and a list `style_guide`, the Mutator yields exactly
3 candidate brains whenever the generative path errors, fails to parse, or
parses to a *list* value (of any length — a wrong count falls back to the
deterministic generator, which always yields exactly 3); a parsed non-list
`mutations` value escapes this guarantee and can abort the invocation
instead, as the counterexample shows. -/
theorem C2_mutation_count (genome brain : Json)
    (pfs : List (String × Json)) (gs ss : List Json) (llm : Option Json)
    (hbrain : genome.lookup "brain" = some brain)
    (hp : brain.lookup "persona" = some (Json.obj pfs))
    (hg : brain.lookup "operational_guidelines" = some (Json.arr gs))
    (hs : brain.lookup "style_guide" = some (Json.arr ss))
    (hllm : llm = none ∨ ∃ parsed, llm = some parsed ∧
      (Mutator.extract_json_safely parsed = none ∨
       ∃ xs, Mutator.extract_json_safely parsed = some (Json.arr xs))) :
    ∃ ms, Mutator.mutations_step genome llm = some (Json.arr ms) ∧ ms.length = 3 := by
  obtain ⟨fms, hf, hflen⟩ := Mutator.fallback_three brain pfs gs ss hp hg hs
  have hfb : (Mutator.generate_fallback_mutations brain).map Json.arr =
      some (Json.arr fms) := by
    rw [hf]
    rfl
  rcases hllm with rfl | ⟨parsed, rfl, hex | ⟨xs, hex⟩⟩
  · refine ⟨fms, ?_, hflen⟩
    simp [Mutator.mutations_step, Mutator.generate_mutations, hbrain, obind, hfb,
      pythonLen, hflen]
  · refine ⟨fms, ?_, hflen⟩
    simp [Mutator.mutations_step, Mutator.generate_mutations, hbrain, obind, hex,
      hfb, pythonLen, hflen]
  · by_cases h3 : xs.length = 3
    · refine ⟨xs, ?_, h3⟩
      simp [Mutator.mutations_step, Mutator.generate_mutations, hbrain, obind, hex,
        pythonLen, h3]
    · refine ⟨fms, ?_, hflen⟩
      simp [Mutator.mutations_step, Mutator.generate_mutations, hbrain, obind, hex,
        hfb, pythonLen, h3]

/-- C2 witness: the amended count theorem applied to a concrete genome with a
failed generation (`none` outcome): the three deterministic fallback
mutations are returned. -/
theorem C2_mutation_count_witness :
    ∃ ms, Mutator.mutations_step
      (Json.obj [
        ("PK", Json.str "AGENT#a"),
        ("SK", Json.str "VERSION#T1"),
        ("brain", Json.obj [
          ("persona", Json.obj [("tone", Json.str "Professional")]),
          ("operational_guidelines", Json.arr []),
          ("style_guide", Json.arr [])])])
      none = some (Json.arr ms) ∧ ms.length = 3 :=
  C2_mutation_count _ (Json.obj [
      ("persona", Json.obj [("tone", Json.str "Professional")]),
      ("operational_guidelines", Json.arr []),
      ("style_guide", Json.arr [])])
    [("tone", Json.str "Professional")] [] [] none
    (by rfl) (by rfl) (by rfl) (by rfl) (Or.inl rfl)

/-! ## Claims C8 and C9 — Serving Path event gating and transcript frame -/

/-- A successful chat update always leaves the updated transcript value under
the chat's `transcript` attribute (whether the item existed or was created by
the upsert). -/
theorem Proxy.update_chat_transcript (st : Store) (csk : String) (T : Json)
    (n : String) (st2 : Store)
    (h : Proxy.update_chat st csk T n = some st2) :
    ∃ it, st2.get csk = some it ∧ it.lookup "transcript" = some T := by
  cases hg : st.get csk with
  | none =>
    simp only [Proxy.update_chat, hg, Option.some.injEq] at h
    subst h
    refine ⟨_, Store.get_put_self _ _ _, ?_⟩
    simp [Json.lookup, List.lookup]
  | some item =>
    simp only [Proxy.update_chat, hg, obind_eq_some] at h
    obtain ⟨it1, h1, h2⟩ := h
    cases item with
    | obj fs =>
      simp only [Json.setKey, Option.some.injEq] at h1
      subst h1
      obtain ⟨it2, h2a, h2b⟩ := h2
      simp only [Json.setKey, Option.some.injEq] at h2a
      subst h2a
      obtain rfl := Option.some.inj h2b
      refine ⟨_, Store.get_put_self _ _ _, ?_⟩
      simp only [Json.lookup]
      rw [lookup_setField_ne _ _ _ _ (by decide : "transcript" ≠ "updated_at")]
      exact lookup_setField_self _ _ _
    | null => simp [Json.setKey] at h1
    | bool b => simp [Json.setKey] at h1
    | num m => simp [Json.setKey] at h1
    | str s => simp [Json.setKey] at h1
    | arr xs => simp [Json.setKey] at h1

/-- The step-8 guard holds exactly for an absent verdict or the string
PASS. -/
theorem Proxy.should_emit_iff (cv : Option Json) :
    Proxy.should_emit cv = true ↔ (cv = none ∨ cv = some (Json.str "PASS")) := by
  cases cv with
  | none => simp [Proxy.should_emit]
  | some j => cases j <;> simp [Proxy.should_emit]

/-- C9: persisting a conversation appends exactly the new user turn followed
by the new assistant turn to the existing transcript, modifies only the
`transcript` and `updated_at` fields of the chat item (all other fields —
the critic fields in particular — are unchanged), and touches no other store
entry. -/
theorem C9_transcript_frame
    (store : Store) (chat_sk : String) (cfs : List (String × Json))
    (existing : List Json) (u a now : String)
    (hchat : store.get chat_sk = some (Json.obj cfs)) :
    ∃ store2 item2,
      Proxy.store_chat_transcript store chat_sk existing u a now = some store2 ∧
      store2.get chat_sk = some item2 ∧
      item2.lookup "transcript" = some (Json.arr (existing ++ [
        Json.obj [("role", .str "user"), ("content", .str u)],
        Json.obj [("role", .str "assistant"), ("content", .str a)]])) ∧
      (∀ k, k ≠ "transcript" → k ≠ "updated_at" →
        item2.lookup k = (Json.obj cfs).lookup k) ∧
      item2.lookup "critic_verdict" = (Json.obj cfs).lookup "critic_verdict" ∧
      item2.lookup "critic_reason" = (Json.obj cfs).lookup "critic_reason" ∧
      item2.lookup "failure_turn_index" = (Json.obj cfs).lookup "failure_turn_index" ∧
      (∀ k', k' ≠ chat_sk → store2.get k' = store.get k') := by
  have hframe : ∀ k, k ≠ "transcript" → k ≠ "updated_at" →
      (Json.obj (setField (setField cfs "transcript" (Json.arr (existing ++ [
          Json.obj [("role", .str "user"), ("content", .str u)],
          Json.obj [("role", .str "assistant"), ("content", .str a)]])))
        "updated_at" (Json.str now))).lookup k = (Json.obj cfs).lookup k := by
    intro k hk1 hk2
    simp only [Json.lookup]
    rw [lookup_setField_ne _ _ _ _ hk2, lookup_setField_ne _ _ _ _ hk1]
  have h1 : Proxy.store_chat_transcript store chat_sk existing u a now =
      some (store.put chat_sk (Json.obj (setField (setField cfs "transcript"
        (Json.arr (existing ++ [
          Json.obj [("role", .str "user"), ("content", .str u)],
          Json.obj [("role", .str "assistant"), ("content", .str a)]])))
        "updated_at" (Json.str now)))) := by
    simp [Proxy.store_chat_transcript, Proxy.update_chat, hchat, Json.setKey, obind]
  refine ⟨_, _, h1, Store.get_put_self _ _ _, ?_,
    hframe, hframe _ (by decide) (by decide), hframe _ (by decide) (by decide),
    hframe _ (by decide) (by decide), fun k' hk' => Store.get_put_ne _ _ _ _ hk'⟩
  simp only [Json.lookup]
  rw [lookup_setField_ne _ _ _ _ (by decide : "transcript" ≠ "updated_at")]
  exact lookup_setField_self _ _ _

/-- C9 witness: the frame theorem applied to a concrete chat with an existing
FAIL verdict: the verdict, reason and failure index survive the append. -/
theorem C9_transcript_frame_witness :
    ∃ store2 item2,
      Proxy.store_chat_transcript
        [("VERSION#T1#CHAT#c1", Json.obj [
          ("transcript", Json.arr [Json.obj [("role", Json.str "user"), ("content", Json.str "hi")]]),
          ("critic_verdict", Json.str "FAIL"),
          ("critic_reason", Json.str "rude"),
          ("failure_turn_index", Json.num 1)])]
        "VERSION#T1#CHAT#c1"
        [Json.obj [("role", Json.str "user"), ("content", Json.str "hi")]]
        "how much?" "Let me check." "2025-04-04" = some store2 ∧
      store2.get "VERSION#T1#CHAT#c1" = some item2 ∧
      item2.lookup "transcript" = some (Json.arr
        ([Json.obj [("role", Json.str "user"), ("content", Json.str "hi")]] ++ [
          Json.obj [("role", .str "user"), ("content", .str "how much?")],
          Json.obj [("role", .str "assistant"), ("content", .str "Let me check.")]])) ∧
      (∀ k, k ≠ "transcript" → k ≠ "updated_at" →
        item2.lookup k = (Json.obj [
          ("transcript", Json.arr [Json.obj [("role", Json.str "user"), ("content", Json.str "hi")]]),
          ("critic_verdict", Json.str "FAIL"),
          ("critic_reason", Json.str "rude"),
          ("failure_turn_index", Json.num 1)]).lookup k) ∧
      item2.lookup "critic_verdict" = (Json.obj [
          ("transcript", Json.arr [Json.obj [("role", Json.str "user"), ("content", Json.str "hi")]]),
          ("critic_verdict", Json.str "FAIL"),
          ("critic_reason", Json.str "rude"),
          ("failure_turn_index", Json.num 1)]).lookup "critic_verdict" ∧
      item2.lookup "critic_reason" = (Json.obj [
          ("transcript", Json.arr [Json.obj [("role", Json.str "user"), ("content", Json.str "hi")]]),
          ("critic_verdict", Json.str "FAIL"),
          ("critic_reason", Json.str "rude"),
          ("failure_turn_index", Json.num 1)]).lookup "critic_reason" ∧
      item2.lookup "failure_turn_index" = (Json.obj [
          ("transcript", Json.arr [Json.obj [("role", Json.str "user"), ("content", Json.str "hi")]]),
          ("critic_verdict", Json.str "FAIL"),
          ("critic_reason", Json.str "rude"),
          ("failure_turn_index", Json.num 1)]).lookup "failure_turn_index" ∧
      (∀ k', k' ≠ "VERSION#T1#CHAT#c1" →
        store2.get k' = Store.get [("VERSION#T1#CHAT#c1", Json.obj [
          ("transcript", Json.arr [Json.obj [("role", Json.str "user"), ("content", Json.str "hi")]]),
          ("critic_verdict", Json.str "FAIL"),
          ("critic_reason", Json.str "rude"),
          ("failure_turn_index", Json.num 1)])] k') :=
  C9_transcript_frame _ "VERSION#T1#CHAT#c1"
    [("transcript", Json.arr [Json.obj [("role", Json.str "user"), ("content", Json.str "hi")]]),
     ("critic_verdict", Json.str "FAIL"),
     ("critic_reason", Json.str "rude"),
     ("failure_turn_index", Json.num 1)]
    [Json.obj [("role", Json.str "user"), ("content", Json.str "hi")]]
    "how much?" "Let me check." "2025-04-04" (by rfl)

/-- C8: on a successful Serving Path request, the ChatResponseGenerated event
is emitted exactly when the conversation's last recorded critic verdict is
absent or PASS; for a recorded FAIL no event is emitted, while the response
is still returned and the appended transcript is still persisted. -/
theorem C8_emit_iff
    (store : Store) (version_sk chat_id u a now : String)
    (tJ : Json) (cv : Option Json) (s2 : Store) (events : List String) (resp : String)
    (hhist : Proxy.get_chat_history (store.get (version_sk ++ "#CHAT#" ++ chat_id)) =
      some (tJ, cv))
    (hserve : Proxy.serve_tail store version_sk chat_id u a now = some (s2, events, resp)) :
    (events ≠ [] ↔ (cv = none ∨ cv = some (Json.str "PASS"))) ∧
    (cv = some (Json.str "FAIL") → events = []) ∧
    resp = a ∧
    (∃ xs, tJ = Json.arr xs ∧
      ∃ item2, s2.get (version_sk ++ "#CHAT#" ++ chat_id) = some item2 ∧
        item2.lookup "transcript" = some (Json.arr (xs ++ [
          Json.obj [("role", .str "user"), ("content", .str u)],
          Json.obj [("role", .str "assistant"), ("content", .str a)]]))) := by
  simp only [Proxy.serve_tail, hhist, obind_some] at hserve
  cases tJ with
  | arr xs =>
    simp only [obind_eq_some] at hserve
    obtain ⟨fmt, hfmt, formatted, hformatted, w, hw, hfin⟩ := hserve
    obtain rfl := Option.some.inj hfmt
    simp only [Option.some.injEq, Prod.mk.injEq] at hfin
    obtain ⟨rfl, rfl, rfl⟩ := hfin
    refine ⟨?_, ?_, rfl, xs, rfl, ?_⟩
    · rw [← Proxy.should_emit_iff]
      by_cases hemit : Proxy.should_emit cv = true
      · simp [hemit]
      · simp [hemit]
    · rintro rfl
      rfl
    · exact Proxy.update_chat_transcript _ _ _ _ _ hw
  | null => simp [obind] at hserve
  | bool b => simp [obind] at hserve
  | num m => simp [obind] at hserve
  | str s => simp [obind] at hserve
  | obj fs => simp [obind] at hserve

/-- C8 witness: a concrete request against a chat whose recorded verdict is
PASS emits the event, returns the response and persists the transcript. -/
theorem C8_emit_iff_witness :
    ∃ s2 events resp,
      Proxy.serve_tail
        [("VERSION#T1#CHAT#c1", Json.obj [
          ("transcript", Json.arr [Json.obj [("role", Json.str "user"), ("content", Json.str "hi")]]),
          ("critic_verdict", Json.str "PASS")])]
        "VERSION#T1" "c1" "how much?" "Let me check." "2025-04-04" =
        some (s2, events, resp) ∧
      (events ≠ [] ↔ (some (Json.str "PASS") = (none : Option Json) ∨
        (some (Json.str "PASS") : Option Json) = some (Json.str "PASS"))) ∧
      resp = "Let me check." := by
  have hs : (Proxy.serve_tail
      [("VERSION#T1#CHAT#c1", Json.obj [
        ("transcript", Json.arr [Json.obj [("role", Json.str "user"), ("content", Json.str "hi")]]),
        ("critic_verdict", Json.str "PASS")])]
      "VERSION#T1" "c1" "how much?" "Let me check." "2025-04-04").isSome = true := by rfl
  obtain ⟨⟨s2, events, resp⟩, hw⟩ := Option.isSome_iff_exists.mp hs
  obtain ⟨hiff, -, hresp, -⟩ := C8_emit_iff _ "VERSION#T1" "c1" "how much?" "Let me check."
    "2025-04-04" (Json.arr [Json.obj [("role", Json.str "user"), ("content", Json.str "hi")]])
    (some (Json.str "PASS")) s2 events resp (by rfl) hw
  exact ⟨s2, events, resp, hw, hiff, hresp⟩
